import Mathlib

set_option maxRecDepth 8192

/-!
Verification development for the AscendCV resume-builder pipeline
(`cvirus.py`): document text extraction (PDF / DOCX), prompt composition,
and the Gemini generation client.  Python-level effects (exceptions raised
by the `docx`, `fitz` and `requests` libraries) are embedded explicitly via
`Except String`, where the `String` carries the exception description that
Python would interpolate into an f-string.
-/

/-! ### Python string primitives used by the source -/

/-- Python whitespace predicate for `str.strip()` (ASCII range). -/
def pyIsSpace (c : Char) : Bool :=
  c = ' ' || c = '\t' || c = '\n' || c = '\r' || c = '\x0b' || c = '\x0c'

/-- Python `str.strip()`: drop leading and trailing whitespace. -/
def pyStrip (s : String) : String :=
  String.mk (((s.data.dropWhile pyIsSpace).reverse.dropWhile pyIsSpace).reverse)

/-- Python `str.lower()` (ASCII case folding, as used on file extensions). -/
def pyLower (s : String) : String :=
  String.mk (s.data.map Char.toLower)

/-- Index of the last occurrence of a character in a character list. -/
def lastIdxOf (cs : List Char) (c : Char) : Option Nat :=
  match cs.reverse.findIdx? (fun x => x == c) with
  | some i => some (cs.length - 1 - i)
  | none => none

/-- Python `os.path.splitext` (POSIX): split off the extension at the last
dot of the basename, where a basename consisting only of leading dots has
no extension. -/
def splitext (p : String) : String × String :=
  let cs := p.data
  match lastIdxOf cs '.' with
  | none => (p, "")
  | some d =>
    let start := match lastIdxOf cs '/' with
      | none => 0
      | some s => s + 1
    if start ≤ d then
      if ((cs.drop start).take (d - start)).any (fun x => x != '.') then
        (String.mk (cs.take d), String.mk (cs.drop d))
      else (p, "")
    else (p, "")

/-- `os.path.splitext(file_path)[1].lower()` as computed in `upload_resume`. -/
def fileExt (p : String) : String :=
  pyLower (splitext p).2

/-! ### PDF page extraction (the `fitz` loop shared by both upload handlers) -/

/-- A PyMuPDF page as probed by the source: each of the two method names is
either absent (`none`) or callable, in which case calling it yields a string
or raises (the `Except` error channel). -/
structure Page where
  get_text : Option (Except String String)
  getText : Option (Except String String)

/-- The per-page body of the `for page in doc` loop: probe `get_text`, then
`getText`, else append the literal placeholder. -/
def pageExtract (p : Page) : Except String String :=
  match p.get_text with
  | some r => r
  | none =>
    match p.getText with
    | some r => r
    | none => Except.ok "[Cannot extract text from page]"

/-- The accumulation `text += ...` over the remaining pages, starting from
the text already accumulated; a raised exception aborts the loop. -/
def extractPagesFrom (acc : String) : List Page → Except String String
  | [] => Except.ok acc
  | p :: ps =>
    match pageExtract p with
    | Except.ok s => extractPagesFrom (acc ++ s) ps
    | Except.error e => Except.error e

/-- Whole-document PDF extraction: concatenate page texts in order. -/
def extractPdf (pages : List Page) : Except String String :=
  extractPagesFrom "" pages

/-- Concatenation of a list of strings with no separator. -/
def concatAll : List String → String
  | [] => ""
  | t :: ts => t ++ concatAll ts

/-- `pagesYield pages texts` says each page's extraction succeeds and yields
the corresponding text, in order. -/
def pagesYield : List Page → List String → Prop
  | [], [] => True
  | p :: ps, t :: ts => pageExtract p = Except.ok t ∧ pagesYield ps ts
  | _, _ => False

/-! ### File-level extraction in the two upload handlers -/

/-- Behaviour of the parsing libraries on the chosen file: `docx.Document`
yields the paragraph texts (or raises), `fitz.open` yields the pages (or
raises). -/
structure FileModel where
  openDocx : Except String (List String)
  openPdf : Except String (List Page)

/-- The `try` body of `upload_resume`: branch on the lower-cased extension;
`.docx` joins paragraph texts with a newline, `.pdf` runs the page loop,
anything else is the unsupported-type placeholder. -/
def resumeExtract (path : String) (fm : FileModel) : Except String String :=
  if fileExt path = ".docx" then
    match fm.openDocx with
    | Except.ok paras => Except.ok (String.intercalate "\n" paras)
    | Except.error e => Except.error e
  else if fileExt path = ".pdf" then
    match fm.openPdf with
    | Except.ok pages => extractPdf pages
    | Except.error e => Except.error e
  else Except.ok "[Unsupported file type]"

/-- `upload_resume`'s stored text: the `try` body's result, with any raised
exception caught and rendered as the read-error placeholder. -/
def upload_resume_text (path : String) (fm : FileModel) : String :=
  match resumeExtract path fm with
  | Except.ok t => t
  | Except.error e => "[Error reading file: " ++ e ++ "]"

/-- The `try` body of `upload_job_description`: no extension check at all,
every chosen file goes straight to `fitz.open` and the page loop. -/
def jdExtract (fm : FileModel) : Except String String :=
  match fm.openPdf with
  | Except.ok pages => extractPdf pages
  | Except.error e => Except.error e

/-- `upload_job_description`'s stored text (the path is never inspected for
its extension by the source). -/
def upload_jd_text (_path : String) (fm : FileModel) : String :=
  match jdExtract fm with
  | Except.ok t => t
  | Except.error e => "[Error reading file: " ++ e ++ "]"

/-! ### The Gemini client -/

/-- A Python-level JSON value, as produced by `response.json()`. -/
inductive PyJson where
  | null
  | bool (b : Bool)
  | num (n : Int)
  | str (s : String)
  | arr (elems : List PyJson)
  | obj (fields : List (String × PyJson))

/-- Python `value[key]` on a dict: `KeyError` when missing, `TypeError`
when the value is not a dict. -/
def PyJson.getField (j : PyJson) (key : String) : Except String PyJson :=
  match j with
  | PyJson.obj fields =>
    match fields.find? (fun kv => kv.fst == key) with
    | some kv => Except.ok kv.snd
    | none => Except.error ("KeyError: " ++ key)
  | _ => Except.error ("TypeError: value is not subscriptable by key " ++ key)

/-- Python `value[i]` on a list: `IndexError` when out of range,
`TypeError` when the value is not a list. -/
def PyJson.getIdx (j : PyJson) (i : Nat) : Except String PyJson :=
  match j with
  | PyJson.arr elems =>
    match elems.drop i with
    | v :: _ => Except.ok v
    | [] => Except.error "IndexError: list index out of range"
  | _ => Except.error "TypeError: value is not subscriptable by index"

/-- `result["candidates"][0]["content"]["parts"][0]["text"]` with every
Python indexing failure surfaced on the error channel. -/
def extractCandidateText (j : PyJson) : Except String PyJson := do
  let cands ← j.getField "candidates"
  let c0 ← cands.getIdx 0
  let content ← c0.getField "content"
  let parts ← content.getField "parts"
  let p0 ← parts.getIdx 0
  p0.getField "text"

/-- Outcome of the outbound HTTP interaction in `call_gemini`, at the three
points where the source can raise plus the parsed-body case. -/
inductive HttpOutcome where
  | raisedOnPost (desc : String)
  | raisedOnStatus (desc : String)
  | raisedOnJson (desc : String)
  | body (j : PyJson)

/-- `call_gemini`: one outbound call, every exception caught by the single
`except` and rendered in-band; on a parsed body the nested indexing chain
either yields the candidate value or its own exception is likewise caught.
The result lives on the same channel as success (`PyJson.str` for every
string-valued outcome). -/
def call_gemini (http : String → HttpOutcome) (prompt : String) : PyJson :=
  match http prompt with
  | HttpOutcome.raisedOnPost e => PyJson.str ("[Gemini API error: " ++ e ++ "]")
  | HttpOutcome.raisedOnStatus e => PyJson.str ("[Gemini API error: " ++ e ++ "]")
  | HttpOutcome.raisedOnJson e => PyJson.str ("[Gemini API error: " ++ e ++ "]")
  | HttpOutcome.body j =>
    match extractCandidateText j with
    | Except.ok v => v
    | Except.error e => PyJson.str ("[Gemini API error: " ++ e ++ "]")

/-- The exception description produced by a failing outcome, `none` when
the call succeeds. -/
def geminiFailure (o : HttpOutcome) : Option String :=
  match o with
  | HttpOutcome.raisedOnPost e => some e
  | HttpOutcome.raisedOnStatus e => some e
  | HttpOutcome.raisedOnJson e => some e
  | HttpOutcome.body j =>
    match extractCandidateText j with
    | Except.ok _ => none
    | Except.error e => some e

/-- A response body of the documented shape, carrying generated text `t` as
the first candidate, with arbitrary further candidates and parts. -/
def geminiResponse (t : String) (moreParts moreCands : List PyJson) : PyJson :=
  PyJson.obj [("candidates", PyJson.arr
    (PyJson.obj [("content", PyJson.obj
      [("parts", PyJson.arr (PyJson.obj [("text", PyJson.str t)] :: moreParts))])]
     :: moreCands))]

/-! ### Prompt composition (the f-string in `generate_resume`) -/

/-- Template text up to the theme interpolation site. -/
def tIntro : String := "\nYou are an advanced ATS resume optimization assistant.\nThoroughly analyze the following job description and the uploaded resume. Create a new, top-quality, ATS-friendly resume that:\n- PRESERVE ALL SECTION TITLES, HEADERS, AND FORMATTING from the uploaded resume. Do NOT change the template, layout, or section names.\n- Only update the content within each section to better align with the job description, using information from the uploaded resume.\n- Intelligently expand and enhance the content within each section, but do NOT add new sections or change section titles.\n- Do NOT add any data or skills that are not present or implied in the uploaded resume unless the job description explicitly mentions them.\n- Use the '"

/-- Template text from the closing theme quote up to the word-band rule. -/
def tAfterTheme : String := "' theme for tone and style if possible.\n- "

/-- The word-band instruction line. -/
def tWordBand : String := "THE FINAL RESUME CONTENT MUST BE STRICTLY BETWEEN 550 AND 950 WORDS. If the content is too short, expand it with relevant details from the resume. If too long, summarize and condense as needed."

/-- Remaining rule lines before the job-description delimiter. -/
def tMiddleRest : String := "\n- Minimize free spaces and ensure the formatting is compact, professional, and highly relevant for the specific job role.\n- The primary goal is to maximize ATS compatibility and ensure the resume is highly likely to be considered for the job role.\n\n"

/-- The labeled delimiter before the interpolated job text. -/
def tJobDelim : String := "---\nJob Description:\n"

/-- The labeled delimiter between the job text and the resume text. -/
def tResumeDelim : String := "\n---\nResume:\n"

/-- The trailing output instruction after the resume text. -/
def tOutputDelim : String := "\n---\nOutput (new resume only, with the SAME section titles and structure as the uploaded resume):\n"

/-- The composed prompt: the f-string with `theme`, `job` and `resume`
interpolated at their three sites. -/
def buildPrompt (resume job theme : String) : String :=
  tIntro ++ theme ++ tAfterTheme ++ tWordBand ++ tMiddleRest ++ tJobDelim ++ job ++ tResumeDelim ++ resume ++ tOutputDelim

/-- Everything of the composed prompt after the interpolated theme. -/
def promptSuffix (resume job : String) : String :=
  tAfterTheme ++ tWordBand ++ tMiddleRest ++ tJobDelim ++ job ++ tResumeDelim ++ resume ++ tOutputDelim

/-! ### `generate_resume` -/

/-- The mutable fields read by `generate_resume`: the stored resume text,
the pasted job text box, the stored job text and the theme selection. -/
structure GenState where
  resume_text : String
  job_input : String
  job_text : String
  theme : String

/-- What one press of the generate button does before touching the network:
either show a message in the preview and return, or call the remote client
with a concrete prompt. -/
inductive GenAction where
  | showMessage (msg : String)
  | callPrompt (prompt : String)

/-- `self.job_input.toPlainText().strip() or self.job_text.strip()`:
Python `or` keeps the first operand unless it is falsy (empty). -/
def selectedJob (jobInput jobText : String) : String :=
  if pyStrip jobInput = "" then pyStrip jobText else pyStrip jobInput

/-- The control-flow skeleton of `generate_resume`: validate, then either
short-circuit with the validation message or reach the `call_gemini` call
with the composed prompt. -/
def generateAction (st : GenState) : GenAction :=
  let resume := pyStrip st.resume_text
  let job := selectedJob st.job_input st.job_text
  if resume = "" ∨ job = "" then
    GenAction.showMessage "Please upload a resume and job description."
  else
    GenAction.callPrompt (buildPrompt resume job st.theme)

/-- The text placed in the output preview: the validation message on the
short-circuit path, otherwise `output.strip()` of the client's result
(`none` models the `AttributeError` Python would raise when the extracted
candidate value is not a string). -/
def generateDisplay (st : GenState) (http : String → HttpOutcome) : Option String :=
  match generateAction st with
  | GenAction.showMessage m => some m
  | GenAction.callPrompt p =>
    match call_gemini http p with
    | PyJson.str s => some (pyStrip s)
    | _ => none

/-! ### Concrete fixtures used by witnesses and counterexamples -/

/-- Three PDF pages: a modern-API page, a page with neither extraction
method, and a legacy-API page. -/
def pagesMixed : List Page :=
  [⟨some (Except.ok "A"), none⟩, ⟨none, none⟩, ⟨none, some (Except.ok "B")⟩]

/-- The texts the three pages of `pagesMixed` yield. -/
def textsMixed : List String :=
  ["A", "[Cannot extract text from page]", "B"]

/-- Library behaviour for a plain-text file handed to the job-description
uploader: `fitz.open` succeeds and exposes the file's text as one page
(what PyMuPDF does with a `.txt` file). -/
def fmNotes : FileModel :=
  ⟨Except.error "not a docx", Except.ok [⟨some (Except.ok "meeting notes"), none⟩]⟩

/-- Library behaviour for a corrupt PDF: `fitz.open` raises. -/
def fmBadPdf : FileModel :=
  ⟨Except.error "not a docx", Except.error "cannot open broken document"⟩

/-- Library behaviour for a two-paragraph DOCX file. -/
def fmDocx : FileModel :=
  ⟨Except.ok ["John Doe", "Skills: Python"], Except.error "not a pdf"⟩

/-- A generation state with a resume, a pasted job text and a stored job
text, all non-empty after stripping. -/
def stSample : GenState := ⟨" resume text ", " pasted jd ", "stored jd", "Modern"⟩

/-! ### String append helper lemmas -/

theorem strData_append (a b : String) : (a ++ b).data = a.data ++ b.data := by
  cases a
  cases b
  rfl

theorem strAppend_assoc (a b c : String) : a ++ b ++ c = a ++ (b ++ c) := by
  cases a with
  | mk as =>
    cases b with
    | mk bs =>
      cases c with
      | mk cs =>
        show String.mk (as ++ bs ++ cs) = String.mk (as ++ (bs ++ cs))
        rw [List.append_assoc]

theorem strAppend_cancel_left {a b c : String} (h : a ++ b = a ++ c) : b = c := by
  cases a with
  | mk as =>
    cases b with
    | mk bs =>
      cases c with
      | mk cs =>
        have hd : as ++ bs = as ++ cs := congrArg String.data h
        exact congrArg String.mk (List.append_cancel_left hd)

theorem strAppend_cancel_right {a b c : String} (h : b ++ a = c ++ a) : b = c := by
  cases a with
  | mk as =>
    cases b with
    | mk bs =>
      cases c with
      | mk cs =>
        have hd : bs ++ as = cs ++ as := congrArg String.data h
        exact congrArg String.mk (List.append_cancel_right hd)

/-- `big` contains `small` as a contiguous substring. -/
def ContainsSubstr (big small : String) : Prop :=
  ∃ x y, big = x ++ small ++ y

theorem extractPagesFrom_ok :
    ∀ (pages : List Page) (texts : List String) (acc : String),
      pagesYield pages texts →
      extractPagesFrom acc pages = Except.ok (acc ++ concatAll texts) := by
  intro pages
  induction pages with
  | nil =>
    intro texts acc h
    cases texts with
    | nil =>
      show Except.ok acc = Except.ok (acc ++ "")
      rw [show acc ++ "" = acc from by cases acc with
        | mk l => exact congrArg String.mk (List.append_nil l)]
    | cons t ts => exact absurd h (by simp [pagesYield])
  | cons p ps ih =>
    intro texts acc h
    cases texts with
    | nil => exact absurd h (by simp [pagesYield])
    | cons t ts =>
      obtain ⟨hp, hrest⟩ := h
      show (match pageExtract p with
        | Except.ok s => extractPagesFrom (acc ++ s) ps
        | Except.error e => Except.error e) = Except.ok (acc ++ concatAll (t :: ts))
      rw [hp]
      show extractPagesFrom (acc ++ t) ps = Except.ok (acc ++ concatAll (t :: ts))
      rw [ih ts (acc ++ t) hrest]
      rw [show acc ++ t ++ concatAll ts = acc ++ (t ++ concatAll ts) from strAppend_assoc acc t (concatAll ts)]
      rfl

/-! ### Claim theorems -/

/-- C1: whenever the stored resume text strips to empty, or both the pasted
job text and the stored job text strip to empty, pressing generate sets the
output preview to the validation message "Please upload a resume and job
description." and returns without reaching the `call_gemini` call (the
action is never a prompt dispatch, and the displayed text is the validation
message for every possible behaviour of the remote endpoint). -/
theorem generate_validation_short_circuit (st : GenState)
    (h : pyStrip st.resume_text = "" ∨ (pyStrip st.job_input = "" ∧ pyStrip st.job_text = "")) :
    generateAction st = GenAction.showMessage "Please upload a resume and job description."
    ∧ (∀ p, generateAction st ≠ GenAction.callPrompt p)
    ∧ (∀ http, generateDisplay st http = some "Please upload a resume and job description.") := by
  have hmsg : generateAction st = GenAction.showMessage "Please upload a resume and job description." := by
    rcases h with h1 | ⟨h2, h3⟩
    · simp [generateAction, h1]
    · simp [generateAction, selectedJob, h2, h3]
  refine ⟨hmsg, ?_, ?_⟩
  · intro p hp
    rw [hmsg] at hp
    exact GenAction.noConfusion hp
  · intro http
    unfold generateDisplay
    rw [hmsg]

/-- C1 witness: an empty stored resume with a pasted job text short-circuits
to the validation message. -/
theorem generate_validation_short_circuit_witness :
    (pyStrip "" = "" ∨ (pyStrip "" = "" ∧ pyStrip "" = ""))
    ∧ generateAction ⟨"", "a job", "", "Modern"⟩
      = GenAction.showMessage "Please upload a resume and job description." :=
  ⟨Or.inl rfl, (generate_validation_short_circuit ⟨"", "a job", "", "Modern"⟩ (Or.inl rfl)).1⟩

/-- C2: for every prompt and every failing outcome of the outbound call
(network error on `post`, non-2xx status raised by `raise_for_status`, a
body that is not JSON, or a parsed body on which the candidates/content/
parts/text indexing chain raises), `call_gemini` catches the exception and
returns the in-band string "[Gemini API error: <description>]" on the same
channel as success; being a total function of the outcome, it propagates no
exception to its caller. -/
theorem call_gemini_catches_failures (http : String → HttpOutcome) (prompt e : String)
    (h : geminiFailure (http prompt) = some e) :
    call_gemini http prompt = PyJson.str ("[Gemini API error: " ++ e ++ "]") := by
  cases hh : http prompt with
  | raisedOnPost d =>
    rw [hh] at h
    simp [geminiFailure] at h
    simp [call_gemini, hh, h]
  | raisedOnStatus d =>
    rw [hh] at h
    simp [geminiFailure] at h
    simp [call_gemini, hh, h]
  | raisedOnJson d =>
    rw [hh] at h
    simp [geminiFailure] at h
    simp [call_gemini, hh, h]
  | body j =>
    rw [hh] at h
    cases hx : extractCandidateText j with
    | ok v =>
      simp [geminiFailure, hx] at h
    | error d =>
      simp [geminiFailure, hx] at h
      simp [call_gemini, hh, hx, h]

/-- C2 witness: a connection error on the POST yields the in-band error
string. -/
theorem call_gemini_catches_failures_witness :
    geminiFailure (HttpOutcome.raisedOnPost "Connection refused") = some "Connection refused"
    ∧ call_gemini (fun _ => HttpOutcome.raisedOnPost "Connection refused") "any prompt"
      = PyJson.str "[Gemini API error: Connection refused]" :=
  ⟨rfl, call_gemini_catches_failures (fun _ => HttpOutcome.raisedOnPost "Connection refused")
    "any prompt" "Connection refused" rfl⟩

/-- C3 counterexample: "notes.txt" has an extension that is neither ".pdf"
nor ".docx", yet uploading it as a job description does not store the
"[Unsupported file type]" placeholder: `upload_job_description` performs no
extension check and hands every chosen file to `fitz.open` (which opens a
plain-text file and exposes its text). -/
theorem jd_upload_no_extension_check_cex :
    fileExt "notes.txt" ≠ ".pdf"
    ∧ fileExt "notes.txt" ≠ ".docx"
    ∧ upload_jd_text "notes.txt" fmNotes = "meeting notes"
    ∧ upload_jd_text "notes.txt" fmNotes ≠ "[Unsupported file type]" :=
  ⟨by decide, by decide, rfl, by decide⟩

/-- C3 amended: for the resume uploader, every file whose extension
(lower-cased) is neither ".docx" nor ".pdf" stores exactly the literal
placeholder "[Unsupported file type]", without raising, for every behaviour
of the parsing libraries. -/
theorem resume_unsupported_extension_placeholder (path : String) (fm : FileModel)
    (h1 : fileExt path ≠ ".docx") (h2 : fileExt path ≠ ".pdf") :
    upload_resume_text path fm = "[Unsupported file type]" := by
  unfold upload_resume_text resumeExtract
  rw [if_neg h1, if_neg h2]

/-- C3 witness: uploading "notes.txt" as a resume stores exactly the
unsupported-type placeholder. -/
theorem resume_unsupported_extension_placeholder_witness :
    fileExt "notes.txt" ≠ ".docx" ∧ fileExt "notes.txt" ≠ ".pdf"
    ∧ upload_resume_text "notes.txt" fmNotes = "[Unsupported file type]" :=
  ⟨by decide, by decide,
    resume_unsupported_extension_placeholder "notes.txt" fmNotes (by decide) (by decide)⟩

/-- C4: both upload handlers catch every exception raised inside their
`try` body at the file level and store the string "[Error reading file:
<description>]" embedding the exception description; as total functions of
the library behaviour they propagate no exception to their caller. -/
theorem upload_extraction_catches_exceptions (path jdPath : String) (fm fm2 : FileModel)
    (e e2 : String)
    (h1 : resumeExtract path fm = Except.error e)
    (h2 : jdExtract fm2 = Except.error e2) :
    upload_resume_text path fm = "[Error reading file: " ++ e ++ "]"
    ∧ upload_jd_text jdPath fm2 = "[Error reading file: " ++ e2 ++ "]" := by
  constructor
  · unfold upload_resume_text
    rw [h1]
  · unfold upload_jd_text
    rw [h2]

/-- C4 witness: a PDF on which `fitz.open` raises yields the read-error
placeholder through both upload handlers. -/
theorem upload_extraction_catches_exceptions_witness :
    resumeExtract "cv.pdf" fmBadPdf = Except.error "cannot open broken document"
    ∧ jdExtract fmBadPdf = Except.error "cannot open broken document"
    ∧ upload_resume_text "cv.pdf" fmBadPdf
      = "[Error reading file: cannot open broken document]"
    ∧ upload_jd_text "jd.pdf" fmBadPdf
      = "[Error reading file: cannot open broken document]" := by
  refine ⟨rfl, rfl, ?_, ?_⟩
  · exact (upload_extraction_catches_exceptions "cv.pdf" "jd.pdf" fmBadPdf fmBadPdf
      "cannot open broken document" "cannot open broken document" rfl rfl).1
  · exact (upload_extraction_catches_exceptions "cv.pdf" "jd.pdf" fmBadPdf fmBadPdf
      "cannot open broken document" "cannot open broken document" rfl rfl).2

/-- C5: for every non-empty resume text, job text and theme label, the
composed prompt embeds the job text and the resume text verbatim between
the "Job Description:" and "Resume:" delimiters, contains the theme label
as a literal token, and contains the instruction that the final content be
strictly between 550 and 950 words; composition is pure interpolation (a
total function) with no other failure mode. -/
theorem prompt_embeds_inputs_and_constraints (resume job theme : String)
    (h1 : resume ≠ "") (h2 : job ≠ "") (h3 : theme ≠ "") :
    ContainsSubstr (buildPrompt resume job theme)
      ("---\nJob Description:\n" ++ job ++ "\n---\nResume:\n" ++ resume ++ "\n---\n")
    ∧ ContainsSubstr (buildPrompt resume job theme) theme
    ∧ ContainsSubstr (buildPrompt resume job theme)
      "THE FINAL RESUME CONTENT MUST BE STRICTLY BETWEEN 550 AND 950 WORDS" := by
  refine ⟨⟨tIntro ++ theme ++ tAfterTheme ++ tWordBand ++ tMiddleRest,
      "Output (new resume only, with the SAME section titles and structure as the uploaded resume):\n", ?_⟩,
    ⟨tIntro, promptSuffix resume job, ?_⟩,
    ⟨tIntro ++ theme ++ tAfterTheme,
      ". If the content is too short, expand it with relevant details from the resume. If too long, summarize and condense as needed." ++ tMiddleRest ++ tJobDelim ++ job ++ tResumeDelim ++ resume ++ tOutputDelim, ?_⟩⟩
  · simp only [buildPrompt, strAppend_assoc]
    rfl
  · simp only [buildPrompt, promptSuffix, strAppend_assoc]
  · simp only [buildPrompt, strAppend_assoc]
    rfl

/-- C5 witness: the scenario inputs from the testable properties, with the
prompt containing the literal token "Modern". -/
theorem prompt_embeds_inputs_and_constraints_witness :
    ("John Doe\nSkills: Python" ≠ "" ∧ "Needs: Python, SQL" ≠ "" ∧ "Modern" ≠ "")
    ∧ ContainsSubstr (buildPrompt "John Doe\nSkills: Python" "Needs: Python, SQL" "Modern") "Modern" :=
  ⟨⟨by decide, by decide, by decide⟩,
    (prompt_embeds_inputs_and_constraints "John Doe\nSkills: Python" "Needs: Python, SQL" "Modern"
      (by decide) (by decide) (by decide)).2.1⟩

/-- C6: for a fixed resume and job text and two distinct theme labels, both
composed prompts decompose as the same prefix and the same suffix around
the interpolated theme — the prefix ending in "Use the '" and the suffix
starting with "' theme", so the sole varying substring is the theme
reference inside the "Use the '<theme>' theme" line — and the two prompts
are indeed distinct. -/
theorem prompt_theme_only_difference (resume job t₁ t₂ : String) (h : t₁ ≠ t₂) :
    buildPrompt resume job t₁ = tIntro ++ t₁ ++ promptSuffix resume job
    ∧ buildPrompt resume job t₂ = tIntro ++ t₂ ++ promptSuffix resume job
    ∧ (∃ pre, tIntro = pre ++ "Use the '")
    ∧ (∃ post, promptSuffix resume job = "' theme" ++ post)
    ∧ buildPrompt resume job t₁ ≠ buildPrompt resume job t₂ := by
  have d1 : buildPrompt resume job t₁ = tIntro ++ t₁ ++ promptSuffix resume job := by
    simp only [buildPrompt, promptSuffix, strAppend_assoc]
  have d2 : buildPrompt resume job t₂ = tIntro ++ t₂ ++ promptSuffix resume job := by
    simp only [buildPrompt, promptSuffix, strAppend_assoc]
  refine ⟨d1, d2, ⟨"\nYou are an advanced ATS resume optimization assistant.\nThoroughly analyze the following job description and the uploaded resume. Create a new, top-quality, ATS-friendly resume that:\n- PRESERVE ALL SECTION TITLES, HEADERS, AND FORMATTING from the uploaded resume. Do NOT change the template, layout, or section names.\n- Only update the content within each section to better align with the job description, using information from the uploaded resume.\n- Intelligently expand and enhance the content within each section, but do NOT add new sections or change section titles.\n- Do NOT add any data or skills that are not present or implied in the uploaded resume unless the job description explicitly mentions them.\n- ", rfl⟩,
    ⟨" for tone and style if possible.\n- " ++ tWordBand ++ tMiddleRest ++ tJobDelim ++ job ++ tResumeDelim ++ resume ++ tOutputDelim, ?_⟩, ?_⟩
  · simp only [promptSuffix, strAppend_assoc]
    rfl
  · intro hEq
    apply h
    rw [d1, d2] at hEq
    exact strAppend_cancel_left (strAppend_cancel_right hEq)

/-- C6 witness: the "Modern" and "Classic" prompts over fixed inputs are
distinct. -/
theorem prompt_theme_only_difference_witness :
    ("Modern" ≠ "Classic")
    ∧ buildPrompt "John Doe" "Needs SQL" "Modern" ≠ buildPrompt "John Doe" "Needs SQL" "Classic" :=
  ⟨by decide,
    (prompt_theme_only_difference "John Doe" "Needs SQL" "Modern" "Classic" (by decide)).2.2.2.2⟩

/-- C7: PDF extraction concatenates the per-page texts in page order with
no separator, and a page exposing neither `get_text` nor `getText` yields
the literal "[Cannot extract text from page]" placeholder as its text while
the remaining pages are still processed (the placeholder participates in
the concatenation like any page text). -/
theorem pdf_concatenates_pages_with_placeholder (pages : List Page) (texts : List String)
    (h : pagesYield pages texts) :
    extractPdf pages = Except.ok (concatAll texts)
    ∧ ∀ p : Page, p.get_text = none → p.getText = none →
        pageExtract p = Except.ok "[Cannot extract text from page]" := by
  constructor
  · exact extractPagesFrom_ok pages texts "" h
  · intro p h1 h2
    simp [pageExtract, h1, h2]

/-- C7 witness: a capability-less page between two readable pages is
replaced by the placeholder and the last page is still extracted. -/
theorem pdf_concatenates_pages_with_placeholder_witness :
    pagesYield pagesMixed textsMixed
    ∧ extractPdf pagesMixed = Except.ok "A[Cannot extract text from page]B" := by
  have h : pagesYield pagesMixed textsMixed := ⟨rfl, rfl, rfl, trivial⟩
  exact ⟨h, (pdf_concatenates_pages_with_placeholder pagesMixed textsMixed h).1⟩

/-- C8: for a DOCX upload whose parse succeeds, the stored text is the
paragraph texts in document order joined by the newline character. -/
theorem docx_paragraphs_joined_by_newline (path : String) (fm : FileModel) (paras : List String)
    (hext : fileExt path = ".docx") (hopen : fm.openDocx = Except.ok paras) :
    upload_resume_text path fm = String.intercalate "\n" paras := by
  unfold upload_resume_text resumeExtract
  rw [if_pos hext, hopen]

/-- C8 witness: a two-paragraph DOCX file stores the two texts joined by a
newline. -/
theorem docx_paragraphs_joined_by_newline_witness :
    fileExt "cv.docx" = ".docx"
    ∧ fmDocx.openDocx = Except.ok ["John Doe", "Skills: Python"]
    ∧ upload_resume_text "cv.docx" fmDocx = "John Doe\nSkills: Python" :=
  ⟨rfl, rfl,
    docx_paragraphs_joined_by_newline "cv.docx" fmDocx ["John Doe", "Skills: Python"] rfl rfl⟩

/-- C9: on a successful call whose parsed body has the documented shape,
`call_gemini` returns the first candidate's text field unmodified, for
every text whatsoever — in particular with no local enforcement of the
550–950 word band (the witness returns a one-word text unchanged). -/
theorem gemini_success_returns_first_candidate (http : String → HttpOutcome)
    (prompt t : String) (moreParts moreCands : List PyJson)
    (h : http prompt = HttpOutcome.body (geminiResponse t moreParts moreCands)) :
    call_gemini http prompt = PyJson.str t := by
  have hx : extractCandidateText (geminiResponse t moreParts moreCands)
      = Except.ok (PyJson.str t) := rfl
  simp [call_gemini, h, hx]

/-- C9 witness: a response carrying the one-word text "hi" (far below the
advisory word band) is returned exactly as "hi". -/
theorem gemini_success_returns_first_candidate_witness :
    ((fun _ : String => HttpOutcome.body (geminiResponse "hi" [] [])) "p"
      = HttpOutcome.body (geminiResponse "hi" [] []))
    ∧ call_gemini (fun _ => HttpOutcome.body (geminiResponse "hi" [] [])) "p" = PyJson.str "hi" :=
  ⟨rfl, gemini_success_returns_first_candidate
    (fun _ => HttpOutcome.body (geminiResponse "hi" [] [])) "p" "hi" [] [] rfl⟩

/-- C10: the job text used for the prompt is the stripped pasted text-box
content whenever that strips non-empty — regardless of the stored upload —
and the stripped stored job text is used exactly when the pasted content
strips to empty; with a non-empty resume, generation dispatches the prompt
composed from the stripped pasted text. -/
theorem pasted_job_text_precedence (st : GenState)
    (hr : pyStrip st.resume_text ≠ "") (hj : pyStrip st.job_input ≠ "") :
    selectedJob st.job_input st.job_text = pyStrip st.job_input
    ∧ generateAction st = GenAction.callPrompt
        (buildPrompt (pyStrip st.resume_text) (pyStrip st.job_input) st.theme)
    ∧ (∀ stored, selectedJob st.job_input stored = pyStrip st.job_input)
    ∧ (∀ pasted, pyStrip pasted = "" → selectedJob pasted st.job_text = pyStrip st.job_text) := by
  have hsel : ∀ stored, selectedJob st.job_input stored = pyStrip st.job_input := by
    intro stored
    unfold selectedJob
    rw [if_neg hj]
  refine ⟨hsel st.job_text, ?_, hsel, ?_⟩
  · simp only [generateAction]
    rw [hsel st.job_text]
    rw [if_neg (not_or.mpr ⟨hr, hj⟩)]
  · intro pasted hp
    unfold selectedJob
    rw [if_pos hp]

/-- C10 witness: with both a pasted and a stored job text present, the
pasted one is selected. -/
theorem pasted_job_text_precedence_witness :
    pyStrip " resume text " ≠ "" ∧ pyStrip " pasted jd " ≠ ""
    ∧ selectedJob " pasted jd " "stored jd" = pyStrip " pasted jd " :=
  ⟨by decide, by decide, (pasted_job_text_precedence stSample (by decide) (by decide)).1⟩
